import Mathlib

/-!
# Verification of the django-websocket-service connection/session lifecycle

Shallow embedding of the WebSocket chat relay's core logic, translated from
`app/chat/consumers.py`, `app/chat/redis_session.py` and `app/asgi.py`:
the per-process session TTL cache, the active-session registry, the
per-connection receive/disconnect handlers, the lifespan shutdown
coordinator, and the external-store wrappers.  Theorems settle the spec's
claims about these components.
-/

namespace WsService

/-! ## In-memory session cache (`consumers.py` lines 55-73)

`_session_cache : Dict[str, tuple[int, float]]` maps a session id to
`(count, timestamp)`.  We embed the dict as an association list whose
lookup agrees with the dict's; timestamps are rationals (seconds). -/

/-- `SESSION_TTL_SECONDS = 300` -/
def SESSION_TTL_SECONDS : ℚ := 300

/-- The `_session_cache` dict: session id ↦ (count, written-at time). -/
abbrev Cache := List (String × Nat × ℚ)

/-- Dict lookup: the value stored for `sid`, if any. -/
def cacheLookup (c : Cache) (sid : String) : Option (Nat × ℚ) :=
  match c.find? (fun e => e.1 == sid) with
  | some e => some e.2
  | none => none

/-- Dict deletion (`_session_cache.pop(session_id, None)`). -/
def cacheDelete (c : Cache) (sid : String) : Cache :=
  c.filter (fun e => e.1 != sid)

/-- `_session_put(session_id, count)`: dict assignment
`_session_cache[session_id] = (count, time.time())`. -/
def sessionPut (c : Cache) (sid : String) (count : Nat) (now : ℚ) : Cache :=
  (sid, count, now) :: cacheDelete c sid

/-- `_session_get(session_id)`: returns the cached count unless the entry is
missing or older than `SESSION_TTL_SECONDS`; an expired entry is popped.
Returns the read result together with the updated cache. -/
def sessionGet (c : Cache) (now : ℚ) (sid : String) : Option Nat × Cache :=
  match cacheLookup c sid with
  | none => (none, c)
  | some (count, ts) =>
      if SESSION_TTL_SECONDS < now - ts then (none, cacheDelete c sid)
      else (some count, c)

/-! ## Active-session registry (`consumers.py` lines 26-50)

`_active_sessions : set[str]`, embedded as a duplicate-free list.  The
`if session_id:` guards are Python truthiness: the empty string is falsy. -/

abbrev Registry := List String

/-- `add_active_session`: `if session_id: _active_sessions.add(session_id)`. -/
def addActiveSession (sid : String) (reg : Registry) : Registry :=
  if sid = "" then reg
  else if sid ∈ reg then reg
  else reg ++ [sid]

/-- `remove_active_session`: `if session_id: _active_sessions.discard(session_id)`. -/
def removeActiveSession (sid : String) (reg : Registry) : Registry :=
  if sid = "" then reg
  else reg.filter (fun x => x != sid)

/-! ## Echo payloads and the receive loop (`consumers.py` lines 144-221) -/

/-- The `{count, echo?}` JSON object sent by `receive`; the `echo` key is
present only when the echoed text is truthy (non-empty). -/
structure EchoPayload where
  count : Nat
  echo : Option String
deriving DecidableEq

/-- Build the response payload: `payload = {"count": self.count}`;
`if echo: payload["echo"] = echo` (the empty string is falsy). -/
def mkEchoPayload (count : Nat) (echo : String) : EchoPayload :=
  { count := count, echo := if echo = "" then none else some echo }

/-- One `receive` call on a text frame: `self.count += 1`, then the
`{count, echo?}` payload is sent.  Returns (new count, payload). -/
def receiveText (count : Nat) (text : String) : Nat × EchoPayload :=
  (count + 1, mkEchoPayload (count + 1) text)

/-- The payloads produced by running `receive` on each text frame of `msgs`
in order, starting from counter value `c`. -/
def runReceives (c : Nat) (msgs : List String) : List EchoPayload :=
  match msgs with
  | [] => []
  | m :: ms => (receiveText c m).2 :: runReceives (receiveText c m).1 ms

theorem runReceives_length (c : Nat) (msgs : List String) :
    (runReceives c msgs).length = msgs.length := by
  induction msgs generalizing c with
  | nil => rfl
  | cons m ms ih => simp [runReceives, ih]

theorem runReceives_count (msgs : List String) (c n : Nat)
    (h : n < msgs.length) :
    EchoPayload.count <$> (runReceives c msgs)[n]? = some (c + n + 1) := by
  induction msgs generalizing c n with
  | nil => simp at h
  | cons m ms ih =>
      cases n with
      | zero => simp [runReceives, receiveText, mkEchoPayload]
      | succ k =>
          have hk : k < ms.length := by simpa using h
          have := ih (receiveText c m).1 k hk
          simp only [runReceives, List.getElem?_cons_succ]
          rw [this]
          simp [receiveText]
          omega

/-! ## Connection establishment (`consumers.py` lines 96-142)

`connect` parses `session` and `redis_persistence` from the query string,
seeds `self.count` (initialised to 0 in `__init__`), accepts the handshake,
joins the groups and registers the session. -/

/-- The session dict returned by `redis_manager.get_session`: a JSON object,
embedded as an association list from keys to integer values (only the
`"count"` key matters to `connect`). -/
abbrev RedisData := List (String × Nat)

/-- Truthiness of `self.session_id` (absent or empty string is falsy). -/
def sidTruthy (sessionId : Option String) : Bool :=
  match sessionId with
  | some s => !(s == "")
  | none => false

/-- The counter value `connect` seeds `self.count` with:
starts at 0; with a session id, external mode first consults the Redis
result (`if redis_data and "count" in redis_data`; an empty dict is falsy
but also has no `"count"` key, so the guard is lookup success) and falls
back to the in-memory cache; ephemeral mode reads only the cache. -/
def connectSeed (sessionId : Option String) (useRedis : Bool)
    (redisData : Option RedisData) (cache : Cache) (now : ℚ) : Nat :=
  match sessionId with
  | none => 0
  | some sid =>
      if useRedis then
        match redisData with
        | some d =>
            match d.lookup "count" with
            | some c => c
            | none => ((sessionGet cache now sid).1).getD 0
        | none => ((sessionGet cache now sid).1).getD 0
      else ((sessionGet cache now sid).1).getD 0

/-- The observable side effects of `connect`, in program order. -/
inductive ConnEvent where
  | parseQuery
  | seedCounter
  | acceptHandshake
  | joinBroadcast
  | joinHeartbeat
  | addRegistry
  | incActive
  | incOpened
  | setSessionsTracked
deriving DecidableEq

/-- Event order of `connect` (success path), from the code: parse the query,
seed the counter (only with a session id), `accept()`, join `broadcast`,
join `heartbeat_<sid>` and register (only with a session id), bump the
connection metrics and refresh the sessions-tracked gauge. -/
def connectTrace (hasSession : Bool) : List ConnEvent :=
  [.parseQuery]
    ++ (if hasSession then [.seedCounter] else [])
    ++ [.acceptHandshake, .joinBroadcast]
    ++ (if hasSession then [.joinHeartbeat, .addRegistry] else [])
    ++ [.incActive, .incOpened, .setSessionsTracked]

/-! ## Disconnect (`consumers.py` lines 223-269) -/

/-- The observable side effects of `disconnect`, in program order. -/
inductive DiscEvent where
  | leaveBroadcast
  | leaveHeartbeat
  | removeRegistry
  | decActive
  | incClosed
  | sendBye
  | persistCount
  | observeMessages
  | setSessionsTracked
deriving DecidableEq

/-- Event order of `disconnect` from the code: leave `broadcast`; with a
session id leave `heartbeat_<sid>` and deregister; decrement the
active-connections gauge and increment the closed counter; best-effort
send `{bye, total}`; then (in `finally`) persist the final count (with a
session id), observe the per-connection message histogram and refresh the
sessions-tracked gauge. -/
def disconnectTrace (hasSession : Bool) : List DiscEvent :=
  [.leaveBroadcast]
    ++ (if hasSession then [.leaveHeartbeat, .removeRegistry] else [])
    ++ [.decActive, .incClosed, .sendBye]
    ++ (if hasSession then [.persistCount] else [])
    ++ [.observeMessages, .setSessionsTracked]

/-- The order of disconnect side effects as the spec's lifecycle section
states it (second definition, following the spec's words, for comparison
with `disconnectTrace`): bye send first, then group leaves and registry
removal, then persistence and the histogram, with the gauge decrement and
closed-counter increment last. -/
def specDisconnectTrace (hasSession : Bool) : List DiscEvent :=
  [.sendBye, .leaveBroadcast]
    ++ (if hasSession then [.leaveHeartbeat, .removeRegistry] else [])
    ++ [.persistCount, .observeMessages, .decActive, .incClosed]

/-- The shared state touched by `disconnect`: group memberships
(`(group, channel)` pairs of the channel layer), the active-session
registry, the metric registers, the session cache and the histogram's
recorded observations. -/
structure DiscState where
  groups : List (String × String)
  registry : Registry
  activeConnections : Int
  connectionsClosed : Nat
  cache : Cache
  observations : List Nat
  sessionsTracked : Nat
deriving DecidableEq

/-- `channel_layer.group_discard(group, channel)` on the in-memory layer:
drop the membership pair if present. -/
def groupDiscard (group channel : String) (gs : List (String × String)) :
    List (String × String) :=
  gs.filter (fun p => p != (group, channel))

/-- The state transformation performed by one run of `disconnect` for a
connection with session id `sessionId`, counter `count`, channel name
`channel`, at time `now` (ephemeral persistence mode, success path). -/
def disconnectEffect (sessionId : Option String) (count : Nat)
    (channel : String) (now : ℚ) (s : DiscState) : DiscState :=
  let gs1 := groupDiscard "broadcast" channel s.groups
  let hasSid := sidTruthy sessionId
  let sid := sessionId.getD ""
  let gs2 := if hasSid then groupDiscard ("heartbeat_" ++ sid) channel gs1 else gs1
  let reg := if hasSid then removeActiveSession sid s.registry else s.registry
  let cache := if hasSid then sessionPut s.cache sid count now else s.cache
  { groups := gs2
    registry := reg
    activeConnections := s.activeConnections - 1
    connectionsClosed := s.connectionsClosed + 1
    cache := cache
    observations := s.observations ++ [count]
    sessionsTracked := reg.length }

/-! ## Registry dynamics (`connect`/`disconnect` against `_active_sessions`)

To settle the registry invariant we track, alongside the registry itself,
the multiset of session ids currently held by live connections.  A connect
of a session-holding connection calls `add_active_session`; its disconnect
calls `remove_active_session` (a plain set `discard`). -/

structure RegState where
  registry : Registry
  live : List String
deriving DecidableEq

/-- Connection lifecycle events of session-holding connections (anonymous
connections never touch the registry). -/
inductive SessEvent where
  | connect (sid : String)
  | disconnect (sid : String)
deriving DecidableEq

/-- Effect of one lifecycle event on the registry and the live multiset. -/
def regStep (s : RegState) : SessEvent → RegState
  | .connect sid =>
      { registry := addActiveSession sid s.registry, live := sid :: s.live }
  | .disconnect sid =>
      { registry := removeActiveSession sid s.registry, live := s.live.erase sid }

def regRun (s : RegState) (evs : List SessEvent) : RegState :=
  evs.foldl regStep s

def regInit : RegState := ⟨[], []⟩

/-- Well-formed single-occupancy histories: every session id is non-empty,
a connect only happens while no live connection holds the same id, and a
disconnect only happens for a live connection. -/
def regWf (s : RegState) : List SessEvent → Bool
  | [] => true
  | .connect sid :: rest =>
      !(sid == "") && !(s.live.contains sid)
        && regWf (regStep s (.connect sid)) rest
  | .disconnect sid :: rest =>
      !(sid == "") && s.live.contains sid
        && regWf (regStep s (.disconnect sid)) rest

/-- The registry invariant: the live multiset is duplicate-free and registry
membership coincides with being held by a live connection. -/
def RegInv (s : RegState) : Prop :=
  s.live.Nodup ∧ ∀ sid : String, sid ∈ s.registry ↔ sid ∈ s.live

theorem mem_addActiveSession (sid : String) (reg : Registry) (x : String)
    (hsid : sid ≠ "") :
    x ∈ addActiveSession sid reg ↔ x ∈ reg ∨ x = sid := by
  unfold addActiveSession
  rw [if_neg hsid]
  by_cases h : sid ∈ reg
  · rw [if_pos h]
    constructor
    · exact fun hx => Or.inl hx
    · rintro (hx | rfl)
      · exact hx
      · exact h
  · rw [if_neg h]
    simp

theorem mem_removeActiveSession (sid : String) (reg : Registry) (x : String)
    (hsid : sid ≠ "") :
    x ∈ removeActiveSession sid reg ↔ x ∈ reg ∧ x ≠ sid := by
  unfold removeActiveSession
  rw [if_neg hsid]
  simp

theorem regInv_preserved (evs : List SessEvent) :
    ∀ s : RegState, regWf s evs = true → RegInv s → RegInv (regRun s evs) := by
  induction evs with
  | nil => exact fun s _ hinv => hinv
  | cons e rest ih =>
      intro s hwf hinv
      obtain ⟨hnd, hmem⟩ := hinv
      cases e with
      | connect sid =>
          simp only [regWf, Bool.and_eq_true, bne_iff_ne, ne_eq,
            Bool.not_eq_true'] at hwf
          obtain ⟨⟨hne, hnl⟩, hrest⟩ := hwf
          have hne' : sid ≠ "" := by
            intro h
            rw [h] at hne
            simp at hne
          have hnl' : sid ∉ s.live := by
            simp only [List.contains_eq_any_beq] at hnl
            intro h
            have := List.any_eq_false.mp hnl sid h
            simp at this
          refine ih _ hrest ⟨?_, ?_⟩
          · exact List.Nodup.cons hnl' hnd
          · intro x
            simp only [regStep]
            rw [mem_addActiveSession sid s.registry x hne', List.mem_cons,
              hmem x]
            tauto
      | disconnect sid =>
          simp only [regWf, Bool.and_eq_true, bne_iff_ne, ne_eq,
            Bool.not_eq_true'] at hwf
          obtain ⟨⟨hne, _⟩, hrest⟩ := hwf
          have hne' : sid ≠ "" := by
            intro h
            rw [h] at hne
            simp at hne
          refine ih _ hrest ⟨?_, ?_⟩
          · exact List.Nodup.erase sid hnd
          · intro x
            simp only [regStep]
            rw [mem_removeActiveSession sid s.registry x hne',
              List.Nodup.mem_erase_iff hnd, hmem x]
            tauto

/-! ## Shutdown coordinator (`asgi.py` lines 95-162)

The `lifespan.shutdown` branch of `LifespanApp.__call__`, with
`_wait_for_shutdown_completion` as the drained inner coroutine.  A timeout
of the 4-second `asyncio.wait_for` cancels the inner coroutine after some
prefix of its steps. -/

/-- The observable steps of the lifespan shutdown sequence.
`raiseCancelled` marks the `CancelledError` propagating uncaught out of
`LifespanApp.__call__`. -/
inductive LsEvent where
  | setReadyFalse
  | setShutdownFlag
  | publishShutdown
  | drainSleep
  | closeChannelLayer
  | finalSleep
  | cancelHeartbeat
  | waitHeartbeatCancel
  | observeShutdownHist
  | sendComplete
  | raiseCancelled
deriving DecidableEq

/-- Steps of `_wait_for_shutdown_completion`, in program order: publish the
shutdown notice to `broadcast` (again), sleep the 2-second drain window,
close the channel layer, sleep the final 0.5 seconds. -/
def waitCompletionTrace : List LsEvent :=
  [.publishShutdown, .drainSleep, .closeChannelLayer, .finalSleep]

/-- How `await asyncio.wait_for(heartbeat_task, timeout=1.0)` ends.  The
surrounding `try` catches only `asyncio.TimeoutError`, and the ticker's
`except Exception` handlers do not catch `CancelledError` (a
`BaseException` on the Python versions this code targets), so the four
possible outcomes of `asgi.py` lines 119-124 are: the task was never
started (`heartbeat_task is None`, the block is skipped); the task had
already returned before the `cancel()` call (the await returns its result
at once); the cancelled task finishes cancelling within 1 second, making
the await re-raise `CancelledError`, which nothing catches; or the task
fails to stop within 1 second and the caught `TimeoutError` is passed
over. -/
inductive HbOutcome where
  | notStarted
  | alreadyDone
  | cancelled
  | timeout
deriving DecidableEq

/-- The full shutdown trace of `LifespanApp.__call__` when the inner drain
coroutine completed `innerSteps` of its steps before the 4-second
`wait_for` timeout cancelled it (4 or more = it ran to completion) and the
heartbeat-task await ended with outcome `hb`: readiness off, shutdown flag
set, shutdown notice published, the drained inner steps, then the
heartbeat cancellation block.  Only when the await does not re-raise
`CancelledError` are the elapsed time observed into the shutdown histogram
and `lifespan.shutdown.complete` sent; on the `cancelled` outcome the
exception propagates out of `__call__` and both steps are skipped. -/
def lifespanShutdownTrace (innerSteps : Nat) (hb : HbOutcome) : List LsEvent :=
  [.setReadyFalse, .setShutdownFlag, .publishShutdown]
    ++ waitCompletionTrace.take innerSteps
    ++ (match hb with
        | .notStarted => [.observeShutdownHist, .sendComplete]
        | .alreadyDone =>
            [.cancelHeartbeat, .waitHeartbeatCancel, .observeShutdownHist,
             .sendComplete]
        | .cancelled => [.cancelHeartbeat, .waitHeartbeatCancel, .raiseCancelled]
        | .timeout =>
            [.cancelHeartbeat, .waitHeartbeatCancel, .observeShutdownHist,
             .sendComplete])

/-- `shutdown_timeout = 4` (seconds), the `wait_for` bound on the drain. -/
def shutdown_timeout : ℚ := 4

/-- The 1-second `wait_for` bound on awaiting the cancelled heartbeat task. -/
def heartbeatCancelTimeout : ℚ := 1

/-- Elapsed time from the `lifespan.shutdown` message to
`lifespan.shutdown.complete`, as a function of how long the drain coroutine
and the cancelled heartbeat task would actually take: each of the two
awaited waits is clamped by its own `asyncio.wait_for` timeout, and the
remaining steps are modelled as instantaneous (so the model elapsed time is
a lower bound on the real one). -/
def shutdownElapsed (drainDur hbDur : ℚ) : ℚ :=
  min drainDur shutdown_timeout + min hbDur heartbeatCancelTimeout

/-! ## The simulated blocking-delay path (`consumers.py` lines 76-84, 162-175)

`receive` takes the delay path when the decoded text begins with
`"block:"`; the suffix after the first colon is fed to Python's `int`,
defaulting to 100 on any parse failure, and `simulate_blocking_io` sleeps
`max(0, duration_ms)` milliseconds. -/

/-- Whitespace stripping performed by Python's `int` on string input. -/
def pyStrip (cs : List Char) : List Char :=
  ((cs.dropWhile Char.isWhitespace).reverse.dropWhile Char.isWhitespace).reverse

/-- The digit part of a Python integer literal after its first digit:
digits with single underscores allowed between digits (`prevUnd` records
whether the previous character was an underscore). -/
def digitsRest (prevUnd : Bool) : List Char → Bool
  | [] => !prevUnd
  | c :: rest =>
      if c = '_' then !prevUnd && digitsRest true rest
      else c.isDigit && digitsRest false rest

/-- Decimal value of a digit string, skipping grouping underscores. -/
def digitsValAux (acc : Nat) : List Char → Nat
  | [] => acc
  | c :: rest =>
      if c = '_' then digitsValAux acc rest
      else digitsValAux (acc * 10 + (c.toNat - 48)) rest

/-- Parse an unsigned Python decimal literal (digits with grouping
underscores, no leading or trailing underscore). -/
def pyNatCore (cs : List Char) : Option Nat :=
  match cs with
  | [] => none
  | c :: rest =>
      if c.isDigit && digitsRest false rest then some (digitsValAux 0 cs)
      else none

/-- Parse an optionally-signed Python decimal literal. -/
def pyIntCore (cs : List Char) : Option Int :=
  match cs with
  | [] => none
  | c :: rest =>
      if c = '+' then (pyNatCore rest).map Int.ofNat
      else if c = '-' then (pyNatCore rest).map (fun m => -Int.ofNat m)
      else (pyNatCore (c :: rest)).map Int.ofNat

/-- `int(raw_ms)` on a string: strip whitespace, then parse the signed
literal; `none` models the `ValueError` caught by `receive`. -/
def pyInt (s : String) : Option Int :=
  pyIntCore (pyStrip s.toList)

/-- `simulate_blocking_io(duration_ms)`: sleeps `max(0, duration_ms)`
milliseconds and reports that value; we return the slept milliseconds. -/
def simulate_blocking_io (duration_ms : Int) : Nat :=
  (max 0 duration_ms).toNat

/-- `a.startswith(b)` on character lists (structural, so that concrete
strings evaluate): `b` is an initial segment of `a`. -/
def listStartsWith : List Char → List Char → Bool
  | _, [] => true
  | [], _ :: _ => false
  | c :: cs, p :: ps => c == p && listStartsWith cs ps

/-- `s.startswith(p)` for strings. -/
def strStartsWith (s p : String) : Bool :=
  listStartsWith s.toList p.toList

/-- The simulated delay performed by `receive` for decoded text `echo`:
`some d` when the blocking path runs a `d`-millisecond simulated delay,
`none` when the path is not taken.  Taken exactly when the text begins
with `"block:"`; the suffix after the first colon (6 characters in) is
parsed with `int`, any failure defaulting to 100. -/
def blockDelay (echo : String) : Option Nat :=
  if strStartsWith echo "block:" then
    some (simulate_blocking_io
      (match pyIntCore (pyStrip (echo.toList.drop 6)) with
       | some n => n
       | none => 100))
  else none

/-- The spec's frame pattern `block:<integer>` (second definition,
following the spec's words, for comparison with `blockDelay`): the text is
`"block:"` followed immediately by an optionally-signed digit string, and
the value is that integer. -/
def specBlockPattern (s : String) : Option Int :=
  if strStartsWith s "block:" then signedDigitsVal (s.toList.drop 6) else none
where
  /-- An optionally-signed, non-empty, pure digit string and its value. -/
  signedDigitsVal : List Char → Option Int
    | [] => none
    | c :: rest =>
        if c = '+' then (pureDigitsVal rest).map Int.ofNat
        else if c = '-' then (pureDigitsVal rest).map (fun m => -Int.ofNat m)
        else (pureDigitsVal (c :: rest)).map Int.ofNat
  /-- A non-empty pure digit string and its decimal value. -/
  pureDigitsVal : List Char → Option Nat
    | [] => none
    | c :: rest =>
        if (c :: rest).all Char.isDigit then some (digitsValAux 0 (c :: rest))
        else none

/-! ## External store operations (`redis_session.py`)

Each operation wraps its whole body in `try`/`except`, returning `None`
(`get_session`) or `False` (`update_session`, `store_message`) on any
internal failure.  The underlying client calls and JSON decoding are
oracles: `Except String α` outcomes supplied as arguments. -/

/-- The `"data"` dict held in a stored session record. -/
abbrev SessData := List (String × Int)

/-- `RedisSessionManager.get_session`: `client.get(key)` (`fetch`), then
`json.loads(data).get("data")` (`decode`, returning `none` when the
`"data"` key is missing); every failure is caught and yields `None`. -/
def get_session (fetch : Except String (Option String))
    (decode : String → Except String (Option SessData)) : Option SessData :=
  match fetch with
  | .error _ => none
  | .ok none => none
  | .ok (some raw) =>
      match decode raw with
      | .error _ => none
      | .ok d => d

/-- `RedisSessionManager.update_session`: read the existing record
(`getExisting`), recover its `created_at` under an inner bare `except`
that falls back to `time.time()` (`now`), then `setex` the new record;
only a failure of the client calls makes the operation return `False`. -/
def update_session (getExisting : Except String (Option String))
    (decodeCreatedAt : String → Except String ℚ) (now : ℚ)
    (setex : ℚ → Except String Unit) : Bool :=
  match getExisting with
  | .error _ => false
  | .ok existing =>
      let createdAt :=
        match existing with
        | some raw =>
            match decodeCreatedAt raw with
            | .ok c => c
            | .error _ => now
        | none => now
      match setex createdAt with
      | .error _ => false
      | .ok _ => true

/-- `RedisSessionManager.store_message`: `rpush` the message, then
`expire` the list; any failure is caught and yields `False`. -/
def store_message (rpush : Except String Unit)
    (expire : Except String Unit) : Bool :=
  match rpush with
  | .error _ => false
  | .ok _ =>
      match expire with
      | .error _ => false
      | .ok _ => true

/-! ## Parser lemmas: the spec pattern `block:<integer>` is accepted by
Python's `int` with the same value. -/

theorem isWhitespace_eq_false_of_isDigit (c : Char) (h : c.isDigit = true) :
    c.isWhitespace = false := by
  rw [Bool.eq_false_iff]
  intro hw
  simp only [Char.isWhitespace, Bool.or_eq_true, decide_eq_true_eq] at hw
  rcases hw with ((h1 | h1) | h1) | h1 <;> subst h1 <;>
    exact absurd h (by decide)

theorem ne_underscore_of_isDigit (c : Char) (h : c.isDigit = true) :
    c ≠ '_' := by
  intro hEq
  subst hEq
  exact absurd h (by decide)

theorem dropWhile_eq_self_of_none (p : Char → Bool) (cs : List Char)
    (h : ∀ c ∈ cs, p c = false) : cs.dropWhile p = cs := by
  cases cs with
  | nil => rfl
  | cons c rest =>
      rw [List.dropWhile_cons, if_neg]
      simp [h c (List.mem_cons_self c rest)]

theorem pyStrip_eq_self (cs : List Char)
    (h : ∀ c ∈ cs, c.isWhitespace = false) : pyStrip cs = cs := by
  unfold pyStrip
  rw [dropWhile_eq_self_of_none _ cs h]
  rw [dropWhile_eq_self_of_none _ cs.reverse
    (fun c hc => h c (List.mem_reverse.mp hc))]
  exact List.reverse_reverse cs

theorem digitsRest_of_all (ds : List Char) (h : ds.all Char.isDigit = true) :
    digitsRest false ds = true := by
  induction ds with
  | nil => rfl
  | cons c rest ih =>
      simp only [List.all_cons, Bool.and_eq_true] at h
      obtain ⟨hc, hrest⟩ := h
      unfold digitsRest
      rw [if_neg (ne_underscore_of_isDigit c hc), hc, ih hrest]
      rfl

theorem pyNatCore_of_all_digits (c : Char) (rest : List Char)
    (h : (c :: rest).all Char.isDigit = true) :
    pyNatCore (c :: rest) = some (digitsValAux 0 (c :: rest)) := by
  simp only [List.all_cons, Bool.and_eq_true] at h
  obtain ⟨hc, hrest⟩ := h
  simp [pyNatCore, hc, digitsRest_of_all rest hrest]

theorem pyStrip_all_digits (cs : List Char) (h : cs.all Char.isDigit = true) :
    pyStrip cs = cs :=
  pyStrip_eq_self cs fun c hc =>
    isWhitespace_eq_false_of_isDigit c (by
      rw [List.all_eq_true] at h
      exact h c hc)

theorem pyStrip_sign_digits (sgn : Char) (cs : List Char)
    (hs : sgn.isWhitespace = false) (h : cs.all Char.isDigit = true) :
    pyStrip (sgn :: cs) = sgn :: cs := by
  refine pyStrip_eq_self _ fun c hc => ?_
  rcases List.mem_cons.mp hc with rfl | hc
  · exact hs
  · refine isWhitespace_eq_false_of_isDigit c ?_
    rw [List.all_eq_true] at h
    exact h c hc

theorem pureDigitsVal_eq_some (cs : List Char) (m : Nat)
    (h : specBlockPattern.pureDigitsVal cs = some m) :
    ∃ d ds, cs = d :: ds ∧ cs.all Char.isDigit = true ∧
      m = digitsValAux 0 cs := by
  cases cs with
  | nil => exact absurd h (by simp [specBlockPattern.pureDigitsVal])
  | cons c rest =>
      by_cases hd : (c :: rest).all Char.isDigit = true
      · refine ⟨c, rest, rfl, hd, ?_⟩
        simp [specBlockPattern.pureDigitsVal, hd] at h
        exact h.symm
      · simp [specBlockPattern.pureDigitsVal, hd] at h

/-- Refinement of the spec pattern into Python's parser: a string accepted
by the spec's `block:<integer>` digit grammar is accepted by `int` (after
whitespace stripping) with the same value. -/
theorem pyIntCore_of_signedDigits (cs : List Char) (n : Int)
    (h : specBlockPattern.signedDigitsVal cs = some n) :
    pyIntCore (pyStrip cs) = some n := by
  cases cs with
  | nil => exact absurd h (by simp [specBlockPattern.signedDigitsVal])
  | cons c rest =>
      by_cases hplus : c = '+'
      · subst hplus
        simp only [specBlockPattern.signedDigitsVal, if_pos] at h
        obtain ⟨m, hm, rfl⟩ := Option.map_eq_some'.mp h
        obtain ⟨d, ds, rfl, hall, hval⟩ := pureDigitsVal_eq_some rest m hm
        rw [pyStrip_sign_digits '+' (d :: ds) (by decide) hall]
        simp [pyIntCore, pyNatCore_of_all_digits d ds hall, hval]
      · by_cases hminus : c = '-'
        · subst hminus
          simp only [specBlockPattern.signedDigitsVal,
            if_neg (by decide : ¬('-' : Char) = '+'), if_pos] at h
          obtain ⟨m, hm, rfl⟩ := Option.map_eq_some'.mp h
          obtain ⟨d, ds, rfl, hall, hval⟩ := pureDigitsVal_eq_some rest m hm
          rw [pyStrip_sign_digits '-' (d :: ds) (by decide) hall]
          simp [pyIntCore, pyNatCore_of_all_digits d ds hall, hval]
        · simp only [specBlockPattern.signedDigitsVal, if_neg hplus,
            if_neg hminus] at h
          obtain ⟨m, hm, rfl⟩ := Option.map_eq_some'.mp h
          obtain ⟨d, ds, hds, hall, hval⟩ := pureDigitsVal_eq_some _ m hm
          rw [pyStrip_all_digits (c :: rest) hall]
          simp [pyIntCore, if_neg hplus, if_neg hminus,
            pyNatCore_of_all_digits c rest hall, hval]

/-! ## Session-cache lemmas -/

theorem sessionGet_put (cache : Cache) (sid : String) (c : Nat) (t t' : ℚ) :
    (sessionGet (sessionPut cache sid c t) t' sid).1 =
      if SESSION_TTL_SECONDS < t' - t then none else some c := by
  unfold sessionGet sessionPut cacheLookup
  rw [List.find?_cons_of_pos _ (by simp)]
  by_cases h : SESSION_TTL_SECONDS < t' - t
  · simp [h]
  · simp [h]

/-! ## Claim theorems -/

/-- C1: for a connection opened without a session identifier the counter is
seeded with 0, and over any sequence of inbound text frames the n-th echo
response produced by `receive` carries `count == n` (the counter is
incremented by exactly 1 before each `{count, echo?}` payload is sent). -/
theorem claim_C1 (useRedis : Bool) (redisData : Option RedisData)
    (cache : Cache) (now : ℚ) (msgs : List String) (n : Nat)
    (h1 : 1 ≤ n) (h2 : n ≤ msgs.length) :
    connectSeed none useRedis redisData cache now = 0 ∧
    EchoPayload.count <$>
      (runReceives (connectSeed none useRedis redisData cache now) msgs)[n - 1]?
      = some n := by
  refine ⟨rfl, ?_⟩
  have h0 : connectSeed none useRedis redisData cache now = 0 := rfl
  rw [h0]
  rw [runReceives_count msgs 0 (n - 1) (by omega)]
  congr 1
  omega

theorem claim_C1_witness :
    connectSeed none false none [] 0 = 0 ∧
    EchoPayload.count <$>
      (runReceives (connectSeed none false none [] 0) ["hello", "world", "x"])[2 - 1]?
      = some 2 :=
  claim_C1 false none [] 0 ["hello", "world", "x"] 2 (by decide) (by decide)

/-- C2: a new connection presenting session id `S` (ephemeral mode) seeds
its counter with the count last persisted for `S` provided the 300-second
TTL of the in-memory cache has not elapsed; past the TTL the seed is 0, so
the first message of the new connection is answered with `count == 1`. -/
theorem claim_C2 (cache : Cache) (sid : String) (c : Nat) (t t' : ℚ)
    (m : String) :
    (t' - t ≤ SESSION_TTL_SECONDS →
      connectSeed (some sid) false none (sessionPut cache sid c t) t' = c) ∧
    (SESSION_TTL_SECONDS < t' - t →
      connectSeed (some sid) false none (sessionPut cache sid c t) t' = 0 ∧
      EchoPayload.count <$>
        (runReceives
          (connectSeed (some sid) false none (sessionPut cache sid c t) t')
          [m])[0]? = some 1) := by
  have hseed : connectSeed (some sid) false none (sessionPut cache sid c t) t'
      = ((sessionGet (sessionPut cache sid c t) t' sid).1).getD 0 := rfl
  constructor
  · intro hle
    rw [hseed, sessionGet_put, if_neg (not_lt.mpr hle)]
    rfl
  · intro hgt
    have h0 : connectSeed (some sid) false none (sessionPut cache sid c t) t'
        = 0 := by
      rw [hseed, sessionGet_put, if_pos hgt]
      rfl
    refine ⟨h0, ?_⟩
    rw [h0, runReceives_count [m] 0 0 (by simp)]

theorem claim_C2_witness :
    connectSeed (some "S") false none (sessionPut [] "S" 2 0) 100 = 2 ∧
    connectSeed (some "S") false none (sessionPut [] "S" 2 0) 400 = 0 ∧
    EchoPayload.count <$>
      (runReceives (connectSeed (some "S") false none (sessionPut [] "S" 2 0) 400)
        ["x"])[0]? = some 1 :=
  ⟨(claim_C2 [] "S" 2 0 100 "x").1 (by norm_num [SESSION_TTL_SECONDS]),
   ((claim_C2 [] "S" 2 0 400 "x").2 (by norm_num [SESSION_TTL_SECONDS])).1,
   ((claim_C2 [] "S" 2 0 400 "x").2 (by norm_num [SESSION_TTL_SECONDS])).2⟩

/-- C10: in external mode with a session id, when the Redis lookup yields
no session data or data lacking a `count` key, `connect` seeds the counter
from the process-local in-memory TTL cache (so state written by an earlier
ephemeral-mode connection in the same process is resumed silently); the
seeding happens before the handshake accept. -/
theorem claim_C10 (sid : String) (cache : Cache) (now : ℚ)
    (d : RedisData) (c : Nat) (t t' : ℚ) :
    connectSeed (some sid) true none cache now
      = ((sessionGet cache now sid).1).getD 0 ∧
    (d.lookup "count" = none →
      connectSeed (some sid) true (some d) cache now
        = ((sessionGet cache now sid).1).getD 0) ∧
    (t' - t ≤ SESSION_TTL_SECONDS →
      connectSeed (some sid) true none (sessionPut cache sid c t) t' = c) ∧
    (connectTrace true).indexOf .seedCounter
      < (connectTrace true).indexOf .acceptHandshake := by
  refine ⟨rfl, ?_, ?_, by decide⟩
  · intro hnone
    simp [connectSeed, hnone]
  · intro hle
    have : connectSeed (some sid) true none (sessionPut cache sid c t) t'
        = ((sessionGet (sessionPut cache sid c t) t' sid).1).getD 0 := rfl
    rw [this, sessionGet_put, if_neg (not_lt.mpr hle)]
    rfl

theorem claim_C10_witness :
    ([("last_activity", 5)] : RedisData).lookup "count" = none ∧
    connectSeed (some "S") true (some [("last_activity", 5)]) (sessionPut [] "S" 7 0) 100
      = ((sessionGet (sessionPut [] "S" 7 0) 100 "S").1).getD 0 ∧
    connectSeed (some "S") true none (sessionPut [] "S" 7 0) 100 = 7 :=
  ⟨by decide,
   (claim_C10 "S" (sessionPut [] "S" 7 0) 100 [("last_activity", 5)] 7 0 100).2.1
     (by decide),
   (claim_C10 "S" [] 100 [("last_activity", 5)] 7 0 100).2.2.1
     (by norm_num [SESSION_TTL_SECONDS])⟩

/-- C3: the claim is right on intent and the code wrong twice over.  In
the ordinary graceful shutdown the cancelled heartbeat task finishes
within 1 second, the await re-raises `CancelledError`, and — since only
`asyncio.TimeoutError` is caught — the `lifespan.shutdown.complete`
signal is never sent (the run ends in the propagating exception); and
even on the paths that do complete, the two bounded waits can spend
4 + 1 = 5 seconds, exceeding the claimed 4-second ceiling. -/
theorem claim_C3_code_bug :
    shutdownElapsed 10 10 = 5 ∧
    ¬ shutdownElapsed 10 10 ≤ shutdown_timeout ∧
    LsEvent.sendComplete ∉ lifespanShutdownTrace 4 .cancelled ∧
    (lifespanShutdownTrace 4 .cancelled).getLast? = some .raiseCancelled := by
  refine ⟨?_, ?_, by decide, by decide⟩ <;>
    norm_num [shutdownElapsed, shutdown_timeout, heartbeatCancelTimeout,
      min_def]

/-- C4 counterexample: the shutdown sequence publishes the shutdown-notice
envelope to the `broadcast` group twice (once directly in the lifespan
branch and once inside `_wait_for_shutdown_completion`), not exactly once;
and in the ordinary graceful shutdown (the heartbeat await re-raising
`CancelledError`) the histogram observation and the complete signal never
happen at all, so they are not steps that follow in every execution. -/
theorem claim_C4_counterexample :
    (lifespanShutdownTrace 4 .cancelled).count .publishShutdown = 2 ∧
    ¬ (lifespanShutdownTrace 4 .cancelled).count .publishShutdown = 1 ∧
    LsEvent.observeShutdownHist ∉ lifespanShutdownTrace 4 .cancelled := by
  decide

/-- C4 (amended): on the host lifecycle-shutdown event the coordinator,
in order: sets the shutting-down flag, publishes a shutdown-notice
envelope, runs the bounded drain wait — whose first step publishes a
second shutdown-notice envelope, so two envelopes are published in total
(one when the drain is cancelled before its first step) — then cancels
the heartbeat ticker and waits at most 1 second for it.  When that await
returns or times out, the coordinator records the elapsed time into the
shutdown-duration histogram and only then signals shutdown complete; but
when the await re-raises the cancelled task's `CancelledError` (the
ordinary case), the exception propagates and both the histogram recording
and the completion signal are skipped. -/
theorem claim_C4_amended (k : Nat) (hb : HbOutcome) :
    (lifespanShutdownTrace k hb).count .publishShutdown
      = (if k = 0 then 1 else 2) ∧
    (lifespanShutdownTrace k hb).indexOf .setShutdownFlag
      < (lifespanShutdownTrace k hb).indexOf .publishShutdown ∧
    (lifespanShutdownTrace k hb).getLast? =
      some (match hb with
            | .cancelled => LsEvent.raiseCancelled
            | _ => LsEvent.sendComplete) ∧
    (LsEvent.sendComplete ∈ lifespanShutdownTrace k hb ↔ hb ≠ .cancelled) ∧
    (LsEvent.observeShutdownHist ∈ lifespanShutdownTrace k hb ↔
      hb ≠ .cancelled) ∧
    lifespanShutdownTrace 4 .cancelled =
      [.setReadyFalse, .setShutdownFlag, .publishShutdown, .publishShutdown,
       .drainSleep, .closeChannelLayer, .finalSleep, .cancelHeartbeat,
       .waitHeartbeatCancel, .raiseCancelled] ∧
    lifespanShutdownTrace 4 .timeout =
      [.setReadyFalse, .setShutdownFlag, .publishShutdown, .publishShutdown,
       .drainSleep, .closeChannelLayer, .finalSleep, .cancelHeartbeat,
       .waitHeartbeatCancel, .observeShutdownHist, .sendComplete] := by
  rcases Nat.lt_or_ge k 4 with hk | hk
  · interval_cases k <;> cases hb <;>
      exact ⟨by decide, by decide, by decide, by decide, by decide,
        by decide, by decide⟩
  · have ht : waitCompletionTrace.take k = waitCompletionTrace :=
      List.take_of_length_le (by simp [waitCompletionTrace]; omega)
    have hne : ¬ k = 0 := by omega
    unfold lifespanShutdownTrace
    rw [ht, if_neg hne]
    cases hb <;>
      exact ⟨by decide, by decide, by decide, by decide, by decide,
        by decide, by decide⟩

/-- C5 counterexample: the disconnect handler's actual side-effect order
differs from the claimed order at a connection with a session id: the
best-effort bye send happens only after the group leaves, registry removal
and connection-metric updates, and the gauge/counter updates are not last. -/
theorem claim_C5_counterexample :
    disconnectTrace true ≠ specDisconnectTrace true ∧
    (disconnectTrace true).indexOf .leaveBroadcast
      < (disconnectTrace true).indexOf .sendBye := by
  decide

/-- C5 (amended): on every connection close the handler performs, in this
order: leave the broadcast group; if a session id is present, leave
`heartbeat_<session_id>` and remove the session from the active-session
registry; decrement the active-connections gauge and increment the
connections-closed counter; then best-effort send `{bye: true, total:
count}` ignoring failure; then persist the final count (if a session id is
present); then observe the per-connection message histogram. -/
theorem claim_C5_amended :
    disconnectTrace true =
      [.leaveBroadcast, .leaveHeartbeat, .removeRegistry, .decActive,
       .incClosed, .sendBye, .persistCount, .observeMessages,
       .setSessionsTracked] ∧
    disconnectTrace false =
      [.leaveBroadcast, .decActive, .incClosed, .sendBye, .observeMessages,
       .setSessionsTracked] := by
  decide

/-- C6 counterexample: two simultaneous connections hold session id `"S"`;
after one of them disconnects, a live connection still holds `"S"` but the
active-session registry no longer contains it (the registry is a plain set
and `disconnect` discards unconditionally). -/
theorem claim_C6_counterexample :
    "S" ∈ (regRun regInit
      [.connect "S", .connect "S", .disconnect "S"]).live ∧
    "S" ∉ (regRun regInit
      [.connect "S", .connect "S", .disconnect "S"]).registry := by
  decide

/-- C6 (amended): provided no two live connections ever hold the same
session identifier simultaneously (and identifiers are non-empty), at
every reachable state a session identifier is in the active-session
registry if and only if a live connection holds it; with double occupancy
the first disconnect removes the identifier even though the other
connection is still live. -/
theorem claim_C6_amended (evs : List SessEvent)
    (h : regWf regInit evs = true) :
    ∀ sid : String,
      sid ∈ (regRun regInit evs).registry ↔ sid ∈ (regRun regInit evs).live :=
  (regInv_preserved evs regInit h ⟨List.nodup_nil, by simp [regInit]⟩).2

theorem claim_C6_witness :
    regWf regInit [.connect "a", .connect "b", .disconnect "a"] = true ∧
    ("b" ∈ (regRun regInit
        [.connect "a", .connect "b", .disconnect "a"]).registry ↔
      "b" ∈ (regRun regInit
        [.connect "a", .connect "b", .disconnect "a"]).live) :=
  ⟨by decide,
   claim_C6_amended [.connect "a", .connect "b", .disconnect "a"]
     (by decide) "b"⟩

/-- Concrete state for exercising the disconnect cleanup twice. -/
def c7Init : DiscState :=
  { groups := [("broadcast", "ch1"), ("heartbeat_s1", "ch1")]
    registry := ["s1"]
    activeConnections := 5
    connectionsClosed := 7
    cache := []
    observations := []
    sessionsTracked := 1 }

def c7Once : DiscState := disconnectEffect (some "s1") 3 "ch1" 10 c7Init

def c7Twice : DiscState := disconnectEffect (some "s1") 3 "ch1" 10 c7Once

/-- C7: running the disconnect cleanup twice is NOT idempotent in the
code: the group leaves and the registry removal are indeed harmless no-ops
the second time, but the active-connections gauge is decremented again and
the connections-closed counter incremented again (and the histogram
observes again), contradicting the spec's idempotent-cleanup requirement. -/
theorem claim_C7_code_bug :
    c7Once.groups = c7Twice.groups ∧
    c7Once.registry = c7Twice.registry ∧
    c7Once.activeConnections = 4 ∧ c7Twice.activeConnections = 3 ∧
    c7Once.connectionsClosed = 8 ∧ c7Twice.connectionsClosed = 9 ∧
    c7Once.observations = [3] ∧ c7Twice.observations = [3, 3] := by
  refine ⟨rfl, rfl, by decide, by decide, rfl, rfl, rfl, rfl⟩

/-- C8 counterexample: the frame `"block:abc"` does not match the pattern
`block:<integer>`, yet the simulated blocking-delay path is taken with the
default 100-millisecond delay (the parse failure is caught and
`duration_ms = 100` substituted). -/
theorem claim_C8_counterexample :
    specBlockPattern "block:abc" = none ∧
    blockDelay "block:abc" = some 100 ∧
    ¬ ((blockDelay "block:abc").isSome = true ↔
        (specBlockPattern "block:abc").isSome = true) := by
  decide

/-- C8 (amended): the simulated blocking-delay path is taken exactly when
the decoded text begins with `"block:"`.  When the text matches the
pattern `block:<integer>` the delay performed is `max(0, <integer>)`
milliseconds; when the text begins with `"block:"` but its suffix is not
accepted by Python's integer parser the delay defaults to 100
milliseconds; any other text is echoed with no simulated delay. -/
theorem claim_C8_amended (s : String) :
    ((blockDelay s).isSome = true ↔ strStartsWith s "block:" = true) ∧
    (∀ n : Int, specBlockPattern s = some n →
      blockDelay s = some (max 0 n).toNat) ∧
    (strStartsWith s "block:" = true →
      pyIntCore (pyStrip (s.toList.drop 6)) = none →
      blockDelay s = some 100) := by
  refine ⟨?_, ?_, ?_⟩
  · unfold blockDelay
    by_cases hb : strStartsWith s "block:" = true
    · simp [hb]
    · simp [hb]
  · intro n hn
    have hb : strStartsWith s "block:" = true := by
      unfold specBlockPattern at hn
      by_cases hb : strStartsWith s "block:" = true
      · exact hb
      · rw [if_neg hb] at hn
        exact absurd hn (by simp)
    have hsd : specBlockPattern.signedDigitsVal (s.toList.drop 6) = some n := by
      unfold specBlockPattern at hn
      rw [if_pos hb] at hn
      exact hn
    unfold blockDelay
    rw [if_pos hb, pyIntCore_of_signedDigits _ n hsd]
    rfl
  · intro hb hparse
    unfold blockDelay
    rw [if_pos hb, hparse]
    rfl

theorem claim_C8_witness :
    specBlockPattern "block:150" = some 150 ∧
    blockDelay "block:150" = some 150 ∧
    specBlockPattern "block:-5" = some (-5) ∧
    blockDelay "block:-5" = some 0 ∧
    blockDelay "block:xyz" = some 100 ∧
    blockDelay "hello" = none :=
  ⟨by decide,
   ((claim_C8_amended "block:150").2.1 150 (by decide)).trans (by decide),
   by decide,
   ((claim_C8_amended "block:-5").2.1 (-5) (by decide)).trans (by decide),
   (claim_C8_amended "block:xyz").2.2 (by decide) (by decide),
   by
     have h := (claim_C8_amended "hello").1
     cases hd : blockDelay "hello" with
     | none => rfl
     | some d =>
         exfalso
         have hb : strStartsWith "hello" "block:" = true :=
           h.mp (by simp [hd])
         exact absurd hb (by decide)⟩

/-- C9: every external-store operation invoked from the connection loop
catches its internal failures and returns the absent value instead of
raising: `get_session` yields `None` on a client error, a missing key or
an undecodable record; `update_session` yields `False` on a client error
(read or write) while a corrupt existing record is tolerated by the inner
bare `except` and the update still succeeds; `store_message` yields
`False` when either client call fails.  No failure propagates out of the
operation, so the message loop continues. -/
theorem claim_C9 (e : String)
    (decode : String → Except String (Option SessData))
    (decodeCreatedAt : String → Except String ℚ) (now : ℚ)
    (setexOk : ℚ → Except String Unit) (existing : Option String)
    (raw : String) :
    get_session (.error e) decode = none ∧
    get_session (.ok none) decode = none ∧
    get_session (.ok (some raw)) (fun _ => .error e) = none ∧
    update_session (.error e) decodeCreatedAt now setexOk = false ∧
    update_session (.ok existing) decodeCreatedAt now (fun _ => .error e)
      = false ∧
    update_session (.ok (some raw)) (fun _ => .error e) now
      (fun _ => .ok ()) = true ∧
    store_message (.error e) (.ok ()) = false ∧
    store_message (.ok ()) (.error e) = false := by
  refine ⟨rfl, rfl, rfl, rfl, ?_, rfl, rfl, rfl⟩
  unfold update_session
  cases existing with
  | none => rfl
  | some r => cases decodeCreatedAt r <;> rfl

end WsService
